import Mathlib

/-
Verification of the rasptime terminal client control logic.

The definitions below are a shallow embedding of the Python sources:
  - dataprovider.py    (DataProvider: HTTP-backed backend client)
  - dataprovider_mock.py (mock DataProvider used in demo mode)
  - terminal.py        (HomeScreen.read_rfid_loop, ClockInOutScreen.show,
                        CurrentWorkingWidget, ClockWidget)
Backend responses, tag reads and the active screen are inputs; each loop
iteration is a pure function from those inputs to the ordered list of side
effects it performs (hardware reads, backend calls, buzzer patterns, UI
transitions, sleeps).
-/

namespace Rasptime

/-! ## Backend HTTP layer (dataprovider.py, DataProvider.__get / __post) -/

/-- Outcome of one HTTP request as seen by DataProvider.__get / __post:
a 2xx success carrying a parsed JSON body, a 404, another status code,
or a network-level failure (RequestException). -/
inductive HttpOutcome (α : Type) where
  | success (body : α)
  | notFound
  | httpError (code : Nat)
  | netFail
deriving DecidableEq

/-- DataProvider.__get: status 200 returns the JSON body, 404 returns None,
any other status returns None (after logging), RequestException returns None. -/
def httpGet {α : Type} : HttpOutcome α → Option α
  | .success b => some b
  | .notFound => none
  | .httpError _ => none
  | .netFail => none

/-- DataProvider.__post: status 200 or 201 returns the JSON body, 404 returns
None, any other status returns None, RequestException returns None. -/
def httpPost {α : Type} : HttpOutcome α → Option α
  | .success b => some b
  | .notFound => none
  | .httpError _ => none
  | .netFail => none

/-- JSON body of GET terminal/user: fields read via data.get. -/
structure UserJson where
  displayName : Option String
  userId : Option String
  clockedIn : Bool
deriving DecidableEq

/-- JSON body of POST terminal/punch. -/
structure PunchJson where
  action : Option String
  message : Option String
  displayName : Option String
deriving DecidableEq

/-- JSON body of GET terminal/registration/active. -/
structure RegJson where
  active : Bool
  sessionId : Option String
deriving DecidableEq

/-- JSON body of GET health. -/
structure HealthJson where
  status : Option String
deriving DecidableEq

/-- One user record of GET admin/users. -/
structure WorkUserJson where
  displayName : Option String
  clockedIn : Bool
  id : Option String
deriving DecidableEq

/-- JSON body of GET admin/time-entries. -/
structure EntriesJson where
  totalNetMinutes : Nat
deriving DecidableEq

/-- DataProvider.user_info: on a JSON body returns the 4-tuple
(displayName, default image path, userId, clockedIn); on any request
failure or 404 returns None. -/
def user_info (o : HttpOutcome UserJson) :
    Option (Option String × String × Option String × Bool) :=
  match httpGet o with
  | some d => some (d.displayName, "images/default_user.jpg", d.userId, d.clockedIn)
  | none => none

/-- DataProvider.punch: on a JSON body returns (action, message, displayName);
on any request failure or 404 returns None. -/
def punch (o : HttpOutcome PunchJson) :
    Option (Option String × Option String × Option String) :=
  match httpPost o with
  | some d => some (d.action, d.message, d.displayName)
  | none => none

/-- DataProvider.working_users: filters the admin/users list to the clocked-in
ones, mapping each to (displayName, empty clock-in time, id); returns the
empty list when the request fails. -/
def working_users (o : HttpOutcome (List WorkUserJson)) :
    List (Option String × String × Option String) :=
  match httpGet o with
  | some users => (users.filter (fun u => u.clockedIn)).map
      (fun u => (u.displayName, "", u.id))
  | none => []

/-- DataProvider.check_registration_mode: returns the sessionId when the body
says active, None otherwise; any request failure also yields None. -/
def check_registration_mode (o : HttpOutcome RegJson) : Option String :=
  match httpGet o with
  | some d => if d.active then d.sessionId else none
  | none => none

/-- DataProvider.submit_registration: True exactly when the POST produced a
body (status 200 or 201). -/
def submit_registration (o : HttpOutcome Unit) : Bool :=
  (httpPost o).isSome

/-- DataProvider.health_check: True exactly when the body has status UP. -/
def health_check (o : HttpOutcome HealthJson) : Bool :=
  match httpGet o with
  | some d => d.status == some "UP"
  | none => false

/-- DataProvider.user_work_summary helper: totalNetMinutes of one
admin/time-entries response, defaulting to 0 when the request failed. -/
def entryMinutes (o : HttpOutcome EntriesJson) : Nat :=
  match httpGet o with
  | some d => d.totalNetMinutes
  | none => 0

/-- DataProvider.user_work_summary: three time-entries requests (today, this
week, last week); each failed request contributes 0; vacation days are the
constant 0 (not implemented). -/
def user_work_summary (t w l : HttpOutcome EntriesJson) :
    Option (Nat × Nat × Nat × Nat) :=
  some (entryMinutes t, entryMinutes w, entryMinutes l, 0)

/-! ## Roster diffing (terminal.py, CurrentWorkingWidget) -/

/-- Python truthiness of an optional string: None and the empty string are
falsy. -/
def pyStrTruthy : Option String → Bool
  | some s => !(s == "")
  | none => false

/-- CurrentWorkingWidget.update_widgets: display text of one roster entry.
A missing name becomes "Unknown " plus the user id; a non-empty clock-in
time is prepended. `tr` is the gettext translation function. -/
def rosterDisplayText (tr : String → String) (name : Option String)
    (clockIn : String) (userId : String) : String :=
  let n := match name with
    | some s => s
    | none => tr "Unknown " ++ userId
  if clockIn == "" then n else clockIn ++ " " ++ n

/-- CurrentWorkingWidget.update_widgets_main_thread: widgets removed are those
previously displayed whose text matches no newly built widget. -/
def rosterRemove (oldTexts newTexts : List String) : List String :=
  oldTexts.filter (fun o => !(newTexts.any (fun n => o == n)))

/-- CurrentWorkingWidget.update_widgets_main_thread: widgets added are the new
ones whose text matches no previously displayed widget. -/
def rosterAdd (oldTexts newTexts : List String) : List String :=
  newTexts.filter (fun n => !(oldTexts.any (fun o => o == n)))

/-! ## Hidden admin entry (terminal.py, ClockWidget.on_press) -/

/-- ClockWidget press-tracking state: press_time and press_counter. -/
structure PressState where
  pressTime : Nat
  pressCounter : Nat
deriving DecidableEq

/-- ClockWidget.on_press: a press within 5 seconds of press_time increments
the counter; reaching 3 resets the counter and opens the admin screen
(second component true); otherwise the window restarts with counter 1 at
the current time. -/
def on_press (st : PressState) (now : Nat) : PressState × Bool :=
  if now - st.pressTime < 5 then
    if st.pressCounter + 1 == 3 then
      (⟨st.pressTime, 0⟩, true)
    else
      (⟨st.pressTime, st.pressCounter + 1⟩, false)
  else
    (⟨now, 1⟩, false)

/-! ## Mock data provider (dataprovider_mock.py) -/

/-- One record of the mock user database. -/
structure MockUser where
  name : String
  image : String
  id : String
  clocked_in : Bool
deriving DecidableEq

/-- The mock_users dictionary of dataprovider_mock.py. -/
def mock_users : List (String × MockUser) :=
  [("12345", ⟨"Max Mustermann", "images/default_user.jpeg", "user_001", false⟩),
   ("67890", ⟨"Anna Schmidt", "images/default_user.jpeg", "user_002", false⟩),
   ("11111", ⟨"Tom Meyer", "images/default_user.jpeg", "user_003", true⟩)]

/-- Mock DataProvider.user_info: a 3-tuple (name, image, id) for a known tag,
None otherwise. Note the arity: the real client returns a 4-tuple. -/
def mock_user_info (tag : String) : Option (String × String × String) :=
  match mock_users.find? (fun p => p.1 == tag) with
  | some p => some (p.2.name, p.2.image, p.2.id)
  | none => none

/-- Methods defined on the mock DataProvider class (dataprovider_mock.py). -/
def mockProviderMethods : List String :=
  ["working_users", "user_info", "user_work_summary", "clock_in", "clock_out"]

/-- Methods the terminal invokes on its data provider: health_check at
startup and on the admin screen, check_registration_mode / submit_registration
/ user_info / punch in the RFID loop, user_work_summary on the user screen,
working_users in the roster widget. -/
def terminalProviderCalls : List String :=
  ["health_check", "check_registration_mode", "submit_registration",
   "user_info", "punch", "user_work_summary", "working_users"]

/-! ## RFID poll loop (terminal.py, HomeScreen.read_rfid_loop) -/

/-- Buzzer patterns available on beep.py Buzzer. -/
inductive Pattern where
  | clockIn
  | clockOut
  | error
  | warning
  | adminMode
  | registrationSuccess
  | success
deriving DecidableEq

/-- One observable side effect of a loop iteration, in program order:
hardware reads, backend calls, buzzer patterns, UI work scheduled onto the
main thread via Clock.schedule_once, and sleeps (milliseconds). -/
inductive Effect where
  | readUid
  | checkRegistration
  | submitRegistration (sessionId uid : String)
  | buzz (p : Pattern)
  | userInfoCall (uid : String)
  | punchCall (uid : String)
  | scheduleChangeScreen (name : String)
  | scheduleShowClock (clockIn : Bool) (displayName : Option String)
  | scheduleShowError (message : String)
  | sleep (ms : Nat)
deriving DecidableEq

/-- Static configuration of the terminal: config.admin_rfid (none when the
attribute is absent or None), whether the global buzzer instance exists, and
the gettext translation function. -/
structure Cfg where
  adminRfid : Option String
  buzzerPresent : Bool
  tr : String → String

/-- External inputs consumed by one iteration of read_rfid_loop: the tag read,
the screen currently shown by the manager, and the backend responses the
iteration would receive for each possible request. -/
structure LoopEnv where
  uid : Option String
  currentScreen : String
  regCheck : HttpOutcome RegJson
  regSubmit : HttpOutcome Unit
  userLookup : HttpOutcome UserJson
  punchResp : HttpOutcome PunchJson

/-- The buzzer calls are guarded by the truthiness of the global buzzer. -/
def buzzIf (cfg : Cfg) (p : Pattern) : List Effect :=
  if cfg.buzzerPresent then [Effect.buzz p] else []

/-- Registration branch of read_rfid_loop: submit the tag, then the
registration-success or error pattern depending on the submission result,
then a 2 second sleep before the next poll. -/
def regBranch (cfg : Cfg) (sessionId uid : String) (submitOk : Bool) :
    List Effect :=
  Effect.submitRegistration sessionId uid ::
    (if submitOk then buzzIf cfg .registrationSuccess else buzzIf cfg .error)
    ++ [Effect.sleep 2000]

/-- Admin branch of read_rfid_loop: admin pattern, schedule the transition to
the admin screen, sleep 1 second before the next poll. -/
def adminBranch (cfg : Cfg) : List Effect :=
  buzzIf cfg .adminMode
    ++ [Effect.scheduleChangeScreen "admin", Effect.sleep 1000]

/-- Outcome handling of the punch call in read_rfid_loop: pattern and
scheduled UI transition for CLOCK_IN, CLOCK_OUT, an unrecognized action
(warning, no transition), or a failed request (error screen). -/
def punchOutcome (cfg : Cfg)
    (r : Option (Option String × Option String × Option String)) :
    List Effect :=
  match r with
  | some (action, _message, displayName) =>
    if action == some "CLOCK_IN" then
      buzzIf cfg .clockIn ++ [Effect.scheduleShowClock true displayName]
    else if action == some "CLOCK_OUT" then
      buzzIf cfg .clockOut ++ [Effect.scheduleShowClock false displayName]
    else
      buzzIf cfg .warning
  | none =>
    buzzIf cfg .error
      ++ [Effect.scheduleShowError (cfg.tr "Server error. Please try again.")]

/-- Normal branch of read_rfid_loop: look the user up; on success punch and
handle the outcome, on an unknown tag fire the error pattern and schedule the
error screen showing the literal tag; both paths end in the 1.5 second
cooldown sleep at the bottom of the loop body. -/
def normalBranch (cfg : Cfg) (uid : String) (env : LoopEnv) : List Effect :=
  Effect.userInfoCall uid ::
    (match user_info env.userLookup with
     | some _ => Effect.punchCall uid :: punchOutcome cfg (punch env.punchResp)
     | none => buzzIf cfg .error
         ++ [Effect.scheduleShowError (cfg.tr "Unknown tag: " ++ uid)])
    ++ [Effect.sleep 1500]

/-- Admin/normal classification of read_rfid_loop: an exact match with
config.admin_rfid takes the admin branch, otherwise the normal punch branch
runs. -/
def adminOrNormal (cfg : Cfg) (uid : String) (env : LoopEnv) : List Effect :=
  if cfg.adminRfid == some uid then adminBranch cfg
  else normalBranch cfg uid env

/-- Mode classification of read_rfid_loop after the registration check
returned: the branch on the session id is Python truthiness, so both None
and an empty-string sessionId fall through to the admin/normal
classification; only a truthy session id takes the registration branch. -/
def classifyBranch (cfg : Cfg) (uid : String) (env : LoopEnv) : List Effect :=
  match check_registration_mode env.regCheck with
  | some sid =>
    if sid == "" then adminOrNormal cfg uid env
    else regBranch cfg sid uid (submit_registration env.regSubmit)
  | none => adminOrNormal cfg uid env

/-- Body of read_rfid_loop after a non-empty tag was read on the home screen:
the registration check runs first, then the classification. -/
def loopBody (cfg : Cfg) (uid : String) (env : LoopEnv) : List Effect :=
  Effect.checkRegistration :: classifyBranch cfg uid env

/-- One iteration of read_rfid_loop: read_uid is called first; a falsy uid or
a screen other than home leads to a 0.1 second sleep and a retry, otherwise
the loop body runs. -/
def loopIter (cfg : Cfg) (env : LoopEnv) : List Effect :=
  Effect.readUid ::
    match env.uid with
    | none => [Effect.sleep 100]
    | some uid =>
      if uid == "" || !(env.currentScreen == "home") then [Effect.sleep 100]
      else loopBody cfg uid env

/-- Concatenated effect trace of a sequence of loop iterations. -/
def pollTrace (cfg : Cfg) : List LoopEnv → List Effect
  | [] => []
  | env :: rest => loopIter cfg env ++ pollTrace cfg rest

/-! ## Clock feedback screen (terminal.py, ClockInOutScreen.show and
HomeScreen.show_clock_screen) -/

/-- UI-side effects of showing the clock feedback screen. -/
inductive ScreenEffect where
  | changeScreen (name : String)
  | setUserName (s : String)
  | setMessage (s : String)
  | rosterRefresh
  | cancelTimer
  | scheduleGoHome (seconds : Nat)
deriving DecidableEq

/-- First whitespace-separated word of a name, as in name.split(' ')[0]. -/
def firstWord (s : String) : String :=
  (s.splitOn " ").headD ""

/-- Message shown by ClockInOutScreen.show: a welcome or goodbye greeting,
with the first name when a truthy name was passed. -/
def clockMessage (cfg : Cfg) (clockIn : Bool) (name : Option String) :
    String :=
  if clockIn then
    if pyStrTruthy name then cfg.tr "Welcome, " ++ firstWord (name.getD "") ++ "!"
    else cfg.tr "Welcome!"
  else
    if pyStrTruthy name then cfg.tr "Goodbye, " ++ firstWord (name.getD "") ++ "!"
    else cfg.tr "Goodbye!"

/-- ClockInOutScreen.show: sets the user name and message, starts a roster
refresh immediately, cancels a pending back timer (a no-op when none is
pending) and schedules the return to home after 3 seconds. -/
def clockScreenShow (cfg : Cfg) (clockIn : Bool) (name : Option String) :
    List ScreenEffect :=
  [ScreenEffect.setUserName (if pyStrTruthy name then name.getD "" else ""),
   ScreenEffect.setMessage (clockMessage cfg clockIn name),
   ScreenEffect.rosterRefresh,
   ScreenEffect.cancelTimer,
   ScreenEffect.scheduleGoHome 3]

/-- HomeScreen.show_clock_screen: switch to the clock screen, then run
ClockInOutScreen.show. -/
def show_clock_screen (cfg : Cfg) (clockIn : Bool) (name : Option String) :
    List ScreenEffect :=
  ScreenEffect.changeScreen "clock" :: clockScreenShow cfg clockIn name

/-! ## Effect discriminators and the cooldown separation property -/

/-- The tag-reader hardware call. -/
def isReadUidEff : Effect → Bool
  | .readUid => true
  | _ => false

/-- The punch backend call. -/
def isPunchCallEff : Effect → Bool
  | .punchCall _ => true
  | _ => false

/-- The user-lookup backend call. -/
def isUserInfoCallEff : Effect → Bool
  | .userInfoCall _ => true
  | _ => false

/-- The registration-submission backend call. -/
def isSubmitRegEff : Effect → Bool
  | .submitRegistration _ _ => true
  | _ => false

/-- The clock-in buzzer pattern. -/
def isBuzzClockInEff : Effect → Bool
  | .buzz .clockIn => true
  | _ => false

/-- Effects that constitute processing of a scanned tag: backend submissions,
lookups, punches and the scheduled UI transitions they trigger. -/
def isProcessingEff : Effect → Bool
  | .submitRegistration _ _ => true
  | .userInfoCall _ => true
  | .punchCall _ => true
  | .scheduleChangeScreen _ => true
  | .scheduleShowClock _ _ => true
  | .scheduleShowError _ => true
  | _ => false

/-- A cooldown sleep: at least one second. -/
def isBigSleepEff : Effect → Bool
  | .sleep ms => 1000 ≤ ms
  | _ => false

/-- Scans an effect trace and checks that once processing of a tag has begun,
no further tag read occurs before a cooldown sleep of at least one second.
The Bool argument is true while the trace is inside such a processing
window. -/
def cooldownSeparated : Bool → List Effect → Bool
  | _, [] => true
  | false, e :: rest => cooldownSeparated (isProcessingEff e) rest
  | true, e :: rest =>
    if isBigSleepEff e then cooldownSeparated false rest
    else if isReadUidEff e then false
    else cooldownSeparated true rest

/-- Number of effects in a trace satisfying a discriminator. -/
def countEff (p : Effect → Bool) (l : List Effect) : Nat :=
  (l.filter p).length

lemma countEff_append (p : Effect → Bool) (a b : List Effect) :
    countEff p (a ++ b) = countEff p a + countEff p b := by
  simp [countEff, List.filter_append]

lemma sep_buzz_tail_true (cfg : Cfg) (p : Pattern) (l : List Effect) :
    cooldownSeparated true (buzzIf cfg p ++ l) = cooldownSeparated true l := by
  by_cases hb : cfg.buzzerPresent <;>
    simp [buzzIf, hb, cooldownSeparated, isBigSleepEff, isReadUidEff]

lemma sep_buzz_tail_false (cfg : Cfg) (p : Pattern) (l : List Effect) :
    cooldownSeparated false (buzzIf cfg p ++ l) = cooldownSeparated false l := by
  by_cases hb : cfg.buzzerPresent <;>
    simp [buzzIf, hb, cooldownSeparated, isProcessingEff]

lemma sep_regBranch (cfg : Cfg) (sid uid : String) (ok : Bool)
    (rest : List Effect) :
    cooldownSeparated false (regBranch cfg sid uid ok ++ rest) =
      cooldownSeparated false rest := by
  cases ok <;>
    simp [regBranch, cooldownSeparated, isProcessingEff, List.append_assoc,
      sep_buzz_tail_true, isBigSleepEff, isReadUidEff]

lemma sep_adminBranch (cfg : Cfg) (rest : List Effect) :
    cooldownSeparated false (adminBranch cfg ++ rest) =
      cooldownSeparated false rest := by
  simp [adminBranch, List.append_assoc, sep_buzz_tail_false,
    cooldownSeparated, isProcessingEff, isBigSleepEff, isReadUidEff]

lemma sep_punchOutcome (cfg : Cfg)
    (r : Option (Option String × Option String × Option String))
    (rest : List Effect) :
    cooldownSeparated true (punchOutcome cfg r ++ rest) =
      cooldownSeparated true rest := by
  rcases r with _ | ⟨a, m, d⟩
  · simp [punchOutcome, List.append_assoc, sep_buzz_tail_true,
      cooldownSeparated, isBigSleepEff, isReadUidEff]
  · by_cases h1 : a == some "CLOCK_IN"
    · simp [punchOutcome, h1, List.append_assoc, sep_buzz_tail_true,
        cooldownSeparated, isBigSleepEff, isReadUidEff]
    · by_cases h2 : a == some "CLOCK_OUT" <;>
        simp [punchOutcome, h1, h2, List.append_assoc, sep_buzz_tail_true,
          cooldownSeparated, isBigSleepEff, isReadUidEff]

lemma sep_normalBranch (cfg : Cfg) (uid : String) (env : LoopEnv)
    (rest : List Effect) :
    cooldownSeparated false (normalBranch cfg uid env ++ rest) =
      cooldownSeparated false rest := by
  rcases h : user_info env.userLookup with _ | u
  · simp [normalBranch, h, cooldownSeparated, isProcessingEff,
      List.append_assoc, sep_buzz_tail_true, isBigSleepEff, isReadUidEff]
  · simp [normalBranch, h, cooldownSeparated, isProcessingEff,
      List.append_assoc, sep_punchOutcome, isBigSleepEff, isReadUidEff]

lemma sep_adminOrNormal (cfg : Cfg) (uid : String) (env : LoopEnv)
    (rest : List Effect) :
    cooldownSeparated false (adminOrNormal cfg uid env ++ rest) =
      cooldownSeparated false rest := by
  by_cases ha : cfg.adminRfid == some uid <;>
    simp [adminOrNormal, ha, sep_adminBranch, sep_normalBranch]

lemma sep_loopBody (cfg : Cfg) (uid : String) (env : LoopEnv)
    (rest : List Effect) :
    cooldownSeparated false (loopBody cfg uid env ++ rest) =
      cooldownSeparated false rest := by
  rcases h : check_registration_mode env.regCheck with _ | sid
  · simp [loopBody, classifyBranch, h, cooldownSeparated, isProcessingEff,
      sep_adminOrNormal]
  · by_cases hsid : sid == "" <;>
      simp [loopBody, classifyBranch, h, hsid, cooldownSeparated,
        isProcessingEff, sep_adminOrNormal, sep_regBranch]

lemma sep_loopIter (cfg : Cfg) (env : LoopEnv) (rest : List Effect) :
    cooldownSeparated false (loopIter cfg env ++ rest) =
      cooldownSeparated false rest := by
  rcases hu : env.uid with _ | uid
  · simp [loopIter, hu, cooldownSeparated, isProcessingEff]
  · by_cases hh : uid == "" || !(env.currentScreen == "home") <;>
      simp [loopIter, hu, hh, cooldownSeparated, isProcessingEff,
        sep_loopBody]

lemma sep_pollTrace (cfg : Cfg) (envs : List LoopEnv) :
    cooldownSeparated false (pollTrace cfg envs) = true := by
  induction envs with
  | nil => simp [pollTrace, cooldownSeparated]
  | cons env rest ih => rw [pollTrace, sep_loopIter]; exact ih

lemma countEff_cons (p : Effect → Bool) (e : Effect) (l : List Effect) :
    countEff p (e :: l) = (if p e then 1 else 0) + countEff p l := by
  simp only [countEff, List.filter_cons]
  split <;> simp [Nat.add_comm]

lemma countEff_nil (p : Effect → Bool) : countEff p [] = 0 :=
  rfl

lemma countEff_buzzIf (cfg : Cfg) (q : Pattern) (p : Effect → Bool)
    (h : ∀ x, p (Effect.buzz x) = false) :
    countEff p (buzzIf cfg q) = 0 := by
  by_cases hb : cfg.buzzerPresent <;> simp [buzzIf, hb, countEff, h]

/-- The four backend-and-hardware discriminators used for claim counting all
reject buzzer effects. -/
lemma backendDiscr_buzz (x : Pattern) :
    isPunchCallEff (Effect.buzz x) = false ∧
    isUserInfoCallEff (Effect.buzz x) = false ∧
    isSubmitRegEff (Effect.buzz x) = false ∧
    isReadUidEff (Effect.buzz x) = false := by
  simp [isPunchCallEff, isUserInfoCallEff, isSubmitRegEff, isReadUidEff]

lemma counts_punchOutcome (cfg : Cfg)
    (r : Option (Option String × Option String × Option String)) :
    countEff isPunchCallEff (punchOutcome cfg r) = 0 ∧
    countEff isUserInfoCallEff (punchOutcome cfg r) = 0 ∧
    countEff isSubmitRegEff (punchOutcome cfg r) = 0 ∧
    countEff isReadUidEff (punchOutcome cfg r) = 0 := by
  rcases r with _ | ⟨a, m, d⟩
  · by_cases hb : cfg.buzzerPresent <;>
      simp [punchOutcome, buzzIf, hb, countEff, isPunchCallEff,
        isUserInfoCallEff, isSubmitRegEff, isReadUidEff]
  · by_cases h1 : a == some "CLOCK_IN" <;> by_cases h2 : a == some "CLOCK_OUT" <;>
      by_cases hb : cfg.buzzerPresent <;>
      simp [punchOutcome, h1, h2, buzzIf, hb, countEff, isPunchCallEff,
        isUserInfoCallEff, isSubmitRegEff, isReadUidEff]

lemma counts_adminOrNormal (cfg : Cfg) (uid : String) (env : LoopEnv) :
    countEff isPunchCallEff (adminOrNormal cfg uid env) ≤ 1 ∧
    countEff isUserInfoCallEff (adminOrNormal cfg uid env) ≤ 1 ∧
    countEff isSubmitRegEff (adminOrNormal cfg uid env) ≤ 1 ∧
    countEff isReadUidEff (adminOrNormal cfg uid env) = 0 := by
  by_cases ha : cfg.adminRfid == some uid
  · by_cases hb : cfg.buzzerPresent <;>
      simp [adminOrNormal, ha, adminBranch, buzzIf, hb, countEff,
        isPunchCallEff, isUserInfoCallEff, isSubmitRegEff, isReadUidEff]
  · rcases hl : user_info env.userLookup with _ | u
    · by_cases hb : cfg.buzzerPresent <;>
        simp [adminOrNormal, ha, normalBranch, hl, buzzIf, hb, countEff,
          isPunchCallEff, isUserInfoCallEff, isSubmitRegEff, isReadUidEff]
    · obtain ⟨hc1, hc2, hc3, hc4⟩ :=
        counts_punchOutcome cfg (punch env.punchResp)
      have e1 : adminOrNormal cfg uid env =
          Effect.userInfoCall uid ::
            ((Effect.punchCall uid ::
                punchOutcome cfg (punch env.punchResp)) ++
              [Effect.sleep 1500]) := by
        simp [adminOrNormal, ha, normalBranch, hl]
      rw [e1]
      refine ⟨?_, ?_, ?_, ?_⟩ <;>
        simp [countEff_cons, countEff_append, countEff_nil, hc1, hc2,
          hc3, hc4, isPunchCallEff, isUserInfoCallEff, isSubmitRegEff,
          isReadUidEff]

lemma counts_classifyBranch (cfg : Cfg) (uid : String) (env : LoopEnv) :
    countEff isPunchCallEff (classifyBranch cfg uid env) ≤ 1 ∧
    countEff isUserInfoCallEff (classifyBranch cfg uid env) ≤ 1 ∧
    countEff isSubmitRegEff (classifyBranch cfg uid env) ≤ 1 ∧
    countEff isReadUidEff (classifyBranch cfg uid env) = 0 := by
  rcases hr : check_registration_mode env.regCheck with _ | sid
  · simpa [classifyBranch, hr] using counts_adminOrNormal cfg uid env
  · by_cases hsid : sid == ""
    · simpa [classifyBranch, hr, hsid] using counts_adminOrNormal cfg uid env
    · cases hok : submit_registration env.regSubmit <;>
        by_cases hb : cfg.buzzerPresent <;>
        simp [classifyBranch, hr, hsid, regBranch, hok, buzzIf, hb, countEff,
          isPunchCallEff, isUserInfoCallEff, isSubmitRegEff, isReadUidEff]

lemma counts_loopIter (cfg : Cfg) (env : LoopEnv) :
    countEff isPunchCallEff (loopIter cfg env) ≤ 1 ∧
    countEff isUserInfoCallEff (loopIter cfg env) ≤ 1 ∧
    countEff isSubmitRegEff (loopIter cfg env) ≤ 1 ∧
    countEff isReadUidEff (loopIter cfg env) = 1 := by
  rcases hu : env.uid with _ | uid
  · simp [loopIter, hu, countEff, isPunchCallEff, isUserInfoCallEff,
      isSubmitRegEff, isReadUidEff]
  · by_cases hh : uid == "" || !(env.currentScreen == "home")
    · simp [loopIter, hu, hh, countEff, isPunchCallEff, isUserInfoCallEff,
        isSubmitRegEff, isReadUidEff]
    · obtain ⟨k1, k2, k3, k4⟩ := counts_classifyBranch cfg uid env
      have e1 : loopIter cfg env = Effect.readUid ::
          Effect.checkRegistration :: classifyBranch cfg uid env := by
        simp [loopIter, hu, hh, loopBody]
      rw [e1]
      refine ⟨?_, ?_, ?_, ?_⟩
      · simpa [countEff_cons, isPunchCallEff] using k1
      · simpa [countEff_cons, isUserInfoCallEff] using k2
      · simpa [countEff_cons, isSubmitRegEff] using k3
      · simp [countEff_cons, isReadUidEff, k4]

/-- C1: a single tag presentation triggers at most one action. Every poll
iteration performs at most one punch call, at most one user lookup and at
most one registration submission, reads the tag reader exactly once, and in
every trace of iterations, once processing of a scanned UID has begun no
further tag read occurs before a cooldown sleep of at least one second (the
post-action cooldowns are 2s after registration, 1s after admin, 1.5s after
the punch and unknown-tag outcomes). -/
theorem tag_single_action_with_cooldown (cfg : Cfg) (envs : List LoopEnv)
    (env : LoopEnv) :
    cooldownSeparated false (pollTrace cfg envs) = true ∧
    countEff isPunchCallEff (loopIter cfg env) ≤ 1 ∧
    countEff isUserInfoCallEff (loopIter cfg env) ≤ 1 ∧
    countEff isSubmitRegEff (loopIter cfg env) ≤ 1 ∧
    countEff isReadUidEff (loopIter cfg env) = 1 :=
  ⟨sep_pollTrace cfg envs, counts_loopIter cfg env⟩

/-- Any iteration that processes a tag (non-empty uid, home screen) starts
with the tag read followed immediately by the registration check; everything
else, in particular any user lookup, comes after. -/
lemma loopIter_processing (cfg : Cfg) (env : LoopEnv) (uid : String)
    (hu : env.uid = some uid) (hne : uid ≠ "")
    (hs : env.currentScreen = "home") :
    loopIter cfg env = Effect.readUid :: Effect.checkRegistration ::
      classifyBranch cfg uid env := by
  have b1 : (uid == "") = false := by simp [hne]
  have b2 : (env.currentScreen == "home") = true := by simp [hs]
  simp [loopIter, hu, b1, b2, loopBody]

/-- Sample configuration for concrete evaluation: admin tag as in config.py,
buzzer present, identity translation. -/
def cfgSample : Cfg :=
  { adminRfid := some "0B79D206A6", buzzerPresent := true, tr := fun s => s }

/-- Iteration input: the admin tag is scanned while a registration session is
active. -/
def envRegAdmin : LoopEnv :=
  { uid := some "0B79D206A6", currentScreen := "home"
    regCheck := HttpOutcome.success ⟨true, some "sess1"⟩
    regSubmit := HttpOutcome.success ()
    userLookup := HttpOutcome.netFail, punchResp := HttpOutcome.netFail }

/-- C2: classification order is registration check, then admin comparison,
then normal punch. With an active registration session (a truthy,
non-empty session id, matching the `if session_id:` truthiness of the
source), even the configured admin tag is submitted as a registration: no
admin transition, no admin pattern, no user lookup occurs; and for every
processed tag the registration check is the first thing after the read,
before any lookup. -/
theorem registration_precedes_admin_and_lookup (cfg : Cfg) (env : LoopEnv)
    (uid sid : String)
    (hu : env.uid = some uid) (hne : uid ≠ "")
    (hs : env.currentScreen = "home")
    (hr : check_registration_mode env.regCheck = some sid)
    (hsid : sid ≠ "")
    (ha : cfg.adminRfid = some uid) :
    loopIter cfg env =
      Effect.readUid :: Effect.checkRegistration ::
        regBranch cfg sid uid (submit_registration env.regSubmit) ∧
    Effect.submitRegistration sid uid ∈ loopIter cfg env ∧
    (∀ s, Effect.scheduleChangeScreen s ∉ loopIter cfg env) ∧
    Effect.buzz Pattern.adminMode ∉ loopIter cfg env ∧
    (∀ t, Effect.userInfoCall t ∉ loopIter cfg env) ∧
    (∀ env2 u2, env2.uid = some u2 → u2 ≠ "" →
      env2.currentScreen = "home" →
      loopIter cfg env2 = Effect.readUid :: Effect.checkRegistration ::
        classifyBranch cfg u2 env2) := by
  have e1 := loopIter_processing cfg env uid hu hne hs
  have hsid' : (sid == "") = false := by simp [hsid]
  have e2 : loopIter cfg env =
      Effect.readUid :: Effect.checkRegistration ::
        regBranch cfg sid uid (submit_registration env.regSubmit) := by
    rw [e1]; simp [classifyBranch, hr, hsid']
  refine ⟨e2, ?_, ?_, ?_, ?_, fun env2 u2 hu2 hn2 hs2 =>
    loopIter_processing cfg env2 u2 hu2 hn2 hs2⟩ <;>
    rw [e2] <;>
    cases hok : submit_registration env.regSubmit <;>
    by_cases hb : cfg.buzzerPresent <;>
    simp [regBranch, buzzIf, hb]

/-- C2 witness: the concrete admin tag under an active session is submitted
as a registration and triggers no admin transition. -/
theorem registration_precedes_admin_witness :
    envRegAdmin.uid = some "0B79D206A6" ∧
    "0B79D206A6" ≠ "" ∧
    envRegAdmin.currentScreen = "home" ∧
    check_registration_mode envRegAdmin.regCheck = some "sess1" ∧
    "sess1" ≠ "" ∧
    cfgSample.adminRfid = some "0B79D206A6" ∧
    Effect.submitRegistration "sess1" "0B79D206A6" ∈
      loopIter cfgSample envRegAdmin ∧
    (∀ s, Effect.scheduleChangeScreen s ∉ loopIter cfgSample envRegAdmin) :=
  ⟨rfl, by decide, rfl, by decide, by decide, rfl,
    (registration_precedes_admin_and_lookup cfgSample envRegAdmin
      "0B79D206A6" "sess1" rfl (by decide) rfl (by decide) (by decide)
      rfl).2.1,
    (registration_precedes_admin_and_lookup cfgSample envRegAdmin
      "0B79D206A6" "sess1" rfl (by decide) rfl (by decide) (by decide)
      rfl).2.2.1⟩

/-- Iteration input: a tag is present while the error screen is shown. -/
def envOffHome : LoopEnv :=
  { uid := some "12345", currentScreen := "error"
    regCheck := HttpOutcome.netFail, regSubmit := HttpOutcome.netFail
    userLookup := HttpOutcome.netFail, punchResp := HttpOutcome.netFail }

/-- C3 counterexample: with a non-Home screen active the iteration still
performs the tag-reader hardware call (read_uid runs before the screen
check), contradicting the claim that no Tag Reader call occurs. -/
theorem offhome_still_reads_reader :
    envOffHome.currentScreen ≠ "home" ∧
    Effect.readUid ∈ loopIter cfgSample envOffHome := by
  constructor
  · decide
  · simp [loopIter]

/-- C3 amended: while a non-Home screen is active an iteration performs
exactly one Tag Reader call followed by a 0.1 s sleep, and no backend client
or feedback-device effect occurs. -/
theorem offhome_no_backend_no_feedback (cfg : Cfg) (env : LoopEnv)
    (h : env.currentScreen ≠ "home") :
    loopIter cfg env = [Effect.readUid, Effect.sleep 100] ∧
    (∀ t, Effect.userInfoCall t ∉ loopIter cfg env) ∧
    (∀ t, Effect.punchCall t ∉ loopIter cfg env) ∧
    (∀ s t, Effect.submitRegistration s t ∉ loopIter cfg env) ∧
    Effect.checkRegistration ∉ loopIter cfg env ∧
    (∀ p, Effect.buzz p ∉ loopIter cfg env) := by
  have b2 : (env.currentScreen == "home") = false := by simp [h]
  have e1 : loopIter cfg env = [Effect.readUid, Effect.sleep 100] := by
    rcases hu : env.uid with _ | uid
    · simp [loopIter, hu]
    · simp [loopIter, hu, b2]
  refine ⟨e1, ?_, ?_, ?_, ?_, ?_⟩ <;> simp [e1]

/-- C3 amended witness: concrete evaluation on the error screen. -/
theorem offhome_no_backend_witness :
    envOffHome.currentScreen ≠ "home" ∧
    loopIter cfgSample envOffHome = [Effect.readUid, Effect.sleep 100] :=
  ⟨by decide,
    (offhome_no_backend_no_feedback cfgSample envOffHome (by decide)).1⟩

/-- Iteration input: unknown tag "99999", no registration session active. -/
def envUnknownTag : LoopEnv :=
  { uid := some "99999", currentScreen := "home"
    regCheck := HttpOutcome.netFail, regSubmit := HttpOutcome.netFail
    userLookup := HttpOutcome.notFound, punchResp := HttpOutcome.netFail }

/-- C4: when the user lookup returns None the iteration fires the error
pattern, schedules the error screen with a message ending in the literal
tag string, and performs no punch call and no clock-feedback transition. -/
theorem unknown_tag_error_screen (cfg : Cfg) (env : LoopEnv) (uid : String)
    (hu : env.uid = some uid) (hne : uid ≠ "")
    (hs : env.currentScreen = "home")
    (hr : check_registration_mode env.regCheck = none)
    (ha : cfg.adminRfid ≠ some uid)
    (hl : user_info env.userLookup = none)
    (hb : cfg.buzzerPresent = true) :
    Effect.buzz Pattern.error ∈ loopIter cfg env ∧
    Effect.scheduleShowError (cfg.tr "Unknown tag: " ++ uid) ∈
      loopIter cfg env ∧
    (∃ pre, cfg.tr "Unknown tag: " ++ uid = pre ++ uid) ∧
    (∀ t, Effect.punchCall t ∉ loopIter cfg env) ∧
    (∀ b n, Effect.scheduleShowClock b n ∉ loopIter cfg env) := by
  have ha' : (cfg.adminRfid == some uid) = false := by simp [ha]
  have e2 : loopIter cfg env =
      [Effect.readUid, Effect.checkRegistration, Effect.userInfoCall uid,
       Effect.buzz Pattern.error,
       Effect.scheduleShowError (cfg.tr "Unknown tag: " ++ uid),
       Effect.sleep 1500] := by
    rw [loopIter_processing cfg env uid hu hne hs]
    simp [classifyBranch, hr, adminOrNormal, ha', normalBranch, hl, buzzIf, hb]
  refine ⟨?_, ?_, ⟨cfg.tr "Unknown tag: ", rfl⟩, ?_, ?_⟩ <;> simp [e2]

/-- C4 witness: concrete unknown tag "99999". -/
theorem unknown_tag_error_witness :
    envUnknownTag.uid = some "99999" ∧
    "99999" ≠ "" ∧
    envUnknownTag.currentScreen = "home" ∧
    check_registration_mode envUnknownTag.regCheck = none ∧
    cfgSample.adminRfid ≠ some "99999" ∧
    user_info envUnknownTag.userLookup = none ∧
    cfgSample.buzzerPresent = true ∧
    Effect.scheduleShowError (cfgSample.tr "Unknown tag: " ++ "99999") ∈
      loopIter cfgSample envUnknownTag ∧
    (∀ t, Effect.punchCall t ∉ loopIter cfgSample envUnknownTag) :=
  ⟨rfl, by decide, rfl, by decide, by decide, by decide, rfl,
    (unknown_tag_error_screen cfgSample envUnknownTag "99999" rfl (by decide)
      rfl (by decide) (by decide) (by decide) rfl).2.1,
    (unknown_tag_error_screen cfgSample envUnknownTag "99999" rfl (by decide)
      rfl (by decide) (by decide) (by decide) rfl).2.2.2.1⟩

/-- Iteration input: known tag "11111" whose punch returns CLOCK_IN for
Tom Meyer. -/
def envClockIn : LoopEnv :=
  { uid := some "11111", currentScreen := "home"
    regCheck := HttpOutcome.success ⟨false, none⟩
    regSubmit := HttpOutcome.netFail
    userLookup := HttpOutcome.success ⟨some "Tom Meyer", some "user_003", false⟩
    punchResp := HttpOutcome.success ⟨some "CLOCK_IN", some "", some "Tom Meyer"⟩ }

/-- C5: a punch returning CLOCK_IN with a display name fires the clock-in
pattern exactly once and schedules the transition to the clock-feedback
screen with isClockIn true and that name; showing that screen triggers an
immediate roster refresh and schedules the return to home after 3 seconds. -/
theorem clock_in_feedback_and_refresh (cfg : Cfg) (env : LoopEnv)
    (uid name : String) (msg : Option String)
    (u : Option String × String × Option String × Bool)
    (hu : env.uid = some uid) (hne : uid ≠ "")
    (hs : env.currentScreen = "home")
    (hr : check_registration_mode env.regCheck = none)
    (ha : cfg.adminRfid ≠ some uid)
    (hl : user_info env.userLookup = some u)
    (hp : punch env.punchResp = some (some "CLOCK_IN", msg, some name))
    (hb : cfg.buzzerPresent = true) :
    countEff isBuzzClockInEff (loopIter cfg env) = 1 ∧
    Effect.scheduleShowClock true (some name) ∈ loopIter cfg env ∧
    ScreenEffect.rosterRefresh ∈ show_clock_screen cfg true (some name) ∧
    ScreenEffect.scheduleGoHome 3 ∈ show_clock_screen cfg true (some name) ∧
    ScreenEffect.changeScreen "clock" ∈
      show_clock_screen cfg true (some name) := by
  have ha' : (cfg.adminRfid == some uid) = false := by simp [ha]
  have e2 : loopIter cfg env =
      [Effect.readUid, Effect.checkRegistration, Effect.userInfoCall uid,
       Effect.punchCall uid, Effect.buzz Pattern.clockIn,
       Effect.scheduleShowClock true (some name), Effect.sleep 1500] := by
    rw [loopIter_processing cfg env uid hu hne hs]
    simp [classifyBranch, hr, adminOrNormal, ha', normalBranch, hl, punchOutcome, hp,
      buzzIf, hb]
  refine ⟨?_, ?_, ?_, ?_, ?_⟩
  · rw [e2]
    simp [countEff_cons, countEff_nil, isBuzzClockInEff]
  · simp [e2]
  all_goals simp [show_clock_screen, clockScreenShow]

/-- C5 witness: the spec scenario, UID "11111" and Tom Meyer clocking in. -/
theorem clock_in_feedback_witness :
    envClockIn.uid = some "11111" ∧
    "11111" ≠ "" ∧
    envClockIn.currentScreen = "home" ∧
    check_registration_mode envClockIn.regCheck = none ∧
    cfgSample.adminRfid ≠ some "11111" ∧
    user_info envClockIn.userLookup =
      some (some "Tom Meyer", "images/default_user.jpg", some "user_003",
        false) ∧
    punch envClockIn.punchResp =
      some (some "CLOCK_IN", some "", some "Tom Meyer") ∧
    countEff isBuzzClockInEff (loopIter cfgSample envClockIn) = 1 ∧
    ScreenEffect.rosterRefresh ∈
      show_clock_screen cfgSample true (some "Tom Meyer") :=
  ⟨rfl, by decide, rfl, by decide, by decide, by decide, by decide,
    (clock_in_feedback_and_refresh cfgSample envClockIn "11111" "Tom Meyer"
      (some "")
      (some "Tom Meyer", "images/default_user.jpg", some "user_003", false)
      rfl (by decide) rfl (by decide) (by decide) (by decide)
      (by decide) rfl).1,
    (clock_in_feedback_and_refresh cfgSample envClockIn "11111" "Tom Meyer"
      (some "")
      (some "Tom Meyer", "images/default_user.jpg", some "user_003", false)
      rfl (by decide) rfl (by decide) (by decide) (by decide)
      (by decide) rfl).2.2.1⟩

/-- C6 counterexample: for every backend operation a network failure yields
exactly the same caller-visible value as a 404 not-found response, so the
caller cannot distinguish them. -/
theorem backend_failure_indistinct_from_notfound :
    user_info HttpOutcome.netFail = user_info HttpOutcome.notFound ∧
    punch HttpOutcome.netFail = punch HttpOutcome.notFound ∧
    working_users HttpOutcome.netFail = working_users HttpOutcome.notFound ∧
    check_registration_mode HttpOutcome.netFail =
      check_registration_mode HttpOutcome.notFound ∧
    health_check HttpOutcome.netFail = health_check HttpOutcome.notFound ∧
    submit_registration HttpOutcome.netFail =
      submit_registration HttpOutcome.notFound ∧
    user_work_summary HttpOutcome.netFail HttpOutcome.netFail
        HttpOutcome.netFail =
      user_work_summary HttpOutcome.notFound HttpOutcome.notFound
        HttpOutcome.notFound := by
  decide

/-- C6 amended: every backend operation collapses network failure, non-OK
HTTP status and 404 to one value (None, the empty list, False, or zero
minutes respectively); no explicit failure distinct from not-found exists. -/
theorem backend_failure_collapse (c : Nat) :
    user_info HttpOutcome.netFail = none ∧
    user_info HttpOutcome.notFound = none ∧
    user_info (HttpOutcome.httpError c) = none ∧
    punch HttpOutcome.netFail = none ∧
    punch HttpOutcome.notFound = none ∧
    punch (HttpOutcome.httpError c) = none ∧
    working_users HttpOutcome.netFail = [] ∧
    working_users HttpOutcome.notFound = [] ∧
    working_users (HttpOutcome.httpError c) = [] ∧
    check_registration_mode HttpOutcome.netFail = none ∧
    check_registration_mode HttpOutcome.notFound = none ∧
    check_registration_mode (HttpOutcome.httpError c) = none ∧
    health_check HttpOutcome.netFail = false ∧
    health_check HttpOutcome.notFound = false ∧
    health_check (HttpOutcome.httpError c) = false ∧
    submit_registration HttpOutcome.netFail = false ∧
    submit_registration HttpOutcome.notFound = false ∧
    submit_registration (HttpOutcome.httpError c) = false ∧
    user_work_summary HttpOutcome.netFail HttpOutcome.netFail
        HttpOutcome.netFail = some (0, 0, 0, 0) ∧
    user_work_summary HttpOutcome.notFound HttpOutcome.notFound
        HttpOutcome.notFound = some (0, 0, 0, 0) :=
  ⟨rfl, rfl, rfl, rfl, rfl, rfl, rfl, rfl, rfl, rfl, rfl, rfl, rfl, rfl,
    rfl, rfl, rfl, rfl, rfl, rfl⟩

lemma countEff_zero_not_mem {p : Effect → Bool} {l : List Effect}
    (h : countEff p l = 0) {e : Effect} (he : p e = true) : e ∉ l := by
  intro hm
  have h2 : l.filter p = [] := List.length_eq_zero.mp h
  exact List.filter_eq_nil_iff.mp h2 e hm he

lemma submitReg_not_mem_adminOrNormal (cfg : Cfg) (uid : String)
    (env : LoopEnv) (s t : String) :
    Effect.submitRegistration s t ∉ adminOrNormal cfg uid env := by
  have hpo : Effect.submitRegistration s t ∉
      punchOutcome cfg (punch env.punchResp) :=
    countEff_zero_not_mem
      (counts_punchOutcome cfg (punch env.punchResp)).2.2.1
      (by simp [isSubmitRegEff])
  by_cases ha : cfg.adminRfid == some uid
  · by_cases hb : cfg.buzzerPresent <;>
      simp [adminOrNormal, ha, adminBranch, buzzIf, hb]
  · rcases hl : user_info env.userLookup with _ | u
    · by_cases hb : cfg.buzzerPresent <;>
        simp [adminOrNormal, ha, normalBranch, hl, buzzIf, hb]
    · simp [adminOrNormal, ha, normalBranch, hl, hpo]

lemma submitReg_not_mem_classify (cfg : Cfg) (uid : String) (env : LoopEnv)
    (hr : check_registration_mode env.regCheck = none) (s t : String) :
    Effect.submitRegistration s t ∉ classifyBranch cfg uid env := by
  simpa [classifyBranch, hr]
    using submitReg_not_mem_adminOrNormal cfg uid env s t

/-- C7: when the registration check returns None (no session, backend error,
or exception all collapse to None) the iteration falls through to the
admin/normal classification, no registration submission occurs, and the
error pattern appears in the registration branch exactly when a submission
failed while the buzzer exists. -/
theorem regcheck_failopen (cfg : Cfg) (env : LoopEnv) (uid : String)
    (hu : env.uid = some uid) (hne : uid ≠ "")
    (hs : env.currentScreen = "home")
    (hr : check_registration_mode env.regCheck = none) :
    loopIter cfg env = Effect.readUid :: Effect.checkRegistration ::
      (if cfg.adminRfid == some uid then adminBranch cfg
       else normalBranch cfg uid env) ∧
    (∀ s t, Effect.submitRegistration s t ∉ loopIter cfg env) ∧
    check_registration_mode HttpOutcome.netFail = none ∧
    (∀ c, check_registration_mode (HttpOutcome.httpError c) = none) ∧
    (∀ sid ok, Effect.buzz Pattern.error ∈ regBranch cfg sid uid ok ↔
      (ok = false ∧ cfg.buzzerPresent = true)) := by
  have e1 := loopIter_processing cfg env uid hu hne hs
  refine ⟨?_, ?_, rfl, fun c => rfl, ?_⟩
  · rw [e1]; simp [classifyBranch, hr, adminOrNormal]
  · intro s t
    rw [e1]
    simp [submitReg_not_mem_classify cfg uid env hr s t]
  · intro sid ok
    cases ok <;> by_cases hb : cfg.buzzerPresent <;>
      simp [regBranch, buzzIf, hb]

/-- Iteration input: the registration check fails at network level. -/
def envRegFail : LoopEnv :=
  { uid := some "12345", currentScreen := "home"
    regCheck := HttpOutcome.netFail, regSubmit := HttpOutcome.netFail
    userLookup := HttpOutcome.notFound, punchResp := HttpOutcome.netFail }

/-- C7 witness: a concrete failed registration check falls through with no
submission. -/
theorem regcheck_failopen_witness :
    envRegFail.uid = some "12345" ∧
    "12345" ≠ "" ∧
    envRegFail.currentScreen = "home" ∧
    check_registration_mode envRegFail.regCheck = none ∧
    (∀ s t, Effect.submitRegistration s t ∉ loopIter cfgSample envRegFail) :=
  ⟨rfl, by decide, rfl, rfl,
    (regcheck_failopen cfgSample envRegFail "12345" rfl (by decide)
      rfl rfl).2.1⟩

/-- C8: the roster delta is exactly the set difference in both directions on
display texts: an entry is removed iff it was displayed and is no longer
fetched, added iff newly fetched and not displayed; on previous [A, B] and
new [B, C] exactly A is removed and exactly C is added, and B is in neither
delta. -/
theorem roster_diff_exact (old upd : List String) (x : String) :
    (x ∈ rosterRemove old upd ↔ x ∈ old ∧ x ∉ upd) ∧
    (x ∈ rosterAdd old upd ↔ x ∈ upd ∧ x ∉ old) ∧
    rosterRemove ["A", "B"] ["B", "C"] = ["A"] ∧
    rosterAdd ["A", "B"] ["B", "C"] = ["C"] ∧
    "B" ∉ rosterRemove ["A", "B"] ["B", "C"] ∧
    "B" ∉ rosterAdd ["A", "B"] ["B", "C"] := by
  refine ⟨?_, ?_, by decide, by decide, by decide, by decide⟩ <;>
    · simp [rosterRemove, rosterAdd, List.mem_filter]
      intro _
      constructor
      · intro h hx
        exact (h x hx) rfl
      · intro h y hy heq
        exact h (heq ▸ hy)

/-- C9 (demo-mode interchangeability is broken): the mock provider defines
none of punch, check_registration_mode, submit_registration or health_check,
all of which the terminal calls, and its user_info returns a 3-tuple
(name, image, id) where the real client returns a 4-tuple that the RFID
loop unpacks into four variables. -/
theorem mock_provider_mismatch :
    "punch" ∉ mockProviderMethods ∧
    "check_registration_mode" ∉ mockProviderMethods ∧
    "submit_registration" ∉ mockProviderMethods ∧
    "health_check" ∉ mockProviderMethods ∧
    "punch" ∈ terminalProviderCalls ∧
    "check_registration_mode" ∈ terminalProviderCalls ∧
    "health_check" ∈ terminalProviderCalls ∧
    mock_user_info "11111" =
      some ("Tom Meyer", "images/default_user.jpeg", "user_003") := by
  decide

/-- C10: the hidden admin entry. From any state, a press at least 5 seconds
after the window start restarts the window with counter 1; three presses
with the second and third strictly within 5 seconds of the first open the
admin screen on the third press and reset the counter to 0. -/
theorem hidden_admin_triple_press (st : PressState) (t0 t1 t2 : Nat)
    (h0 : st.pressTime + 5 ≤ t0) (h1 : t1 - t0 < 5) (h2 : t2 - t0 < 5) :
    (on_press st t0).2 = false ∧
    (on_press st t0).1 = ⟨t0, 1⟩ ∧
    (on_press (⟨t0, 1⟩ : PressState) t1).2 = false ∧
    (on_press (⟨t0, 1⟩ : PressState) t1).1 = ⟨t0, 2⟩ ∧
    (on_press (⟨t0, 2⟩ : PressState) t2).2 = true ∧
    (on_press (⟨t0, 2⟩ : PressState) t2).1 = ⟨t0, 0⟩ ∧
    (∀ s : PressState, ∀ t, s.pressTime + 5 ≤ t →
      on_press s t = (⟨t, 1⟩, false)) := by
  have c0 : ¬ (t0 - st.pressTime < 5) := by omega
  have cr : ∀ s : PressState, ∀ t, s.pressTime + 5 ≤ t →
      on_press s t = (⟨t, 1⟩, false) := by
    intro s t h
    have hc : ¬ (t - s.pressTime < 5) := by omega
    simp [on_press, hc]
  refine ⟨?_, ?_, ?_, ?_, ?_, ?_, cr⟩ <;>
    simp [on_press, c0, h1, h2]

/-- C10 witness: presses at times 7, 8, 9 starting from the initial state
open the admin screen on the third press. -/
theorem hidden_admin_triple_press_witness :
    (⟨0, 0⟩ : PressState).pressTime + 5 ≤ 7 ∧
    (8 : Nat) - 7 < 5 ∧
    (9 : Nat) - 7 < 5 ∧
    (on_press (⟨7, 2⟩ : PressState) 9).2 = true ∧
    (on_press (⟨0, 0⟩ : PressState) 7).2 = false :=
  ⟨by decide, by decide, by decide,
    (hidden_admin_triple_press ⟨0, 0⟩ 7 8 9 (by decide) (by decide)
      (by decide)).2.2.2.2.1,
    (hidden_admin_triple_press ⟨0, 0⟩ 7 8 9 (by decide) (by decide)
      (by decide)).1⟩

end Rasptime
